import Mathlib

/-!
# steps-xcode-archive: the orchestration pipeline of `step/main.go`

A shallow embedding of `step.Run`, `createRunOptions` and `createExportOptions`.

* The four phases (`ProcessInputs`, `EnsureDependencies`, `Run`, `ExportOutput`) are methods of
  the archiver built by `createXcodebuildArchiver`; their bodies live outside `main.go`, so the
  archiver is a parameter: a record of four state-passing functions over an arbitrary world `σ`.
* Every call of a phase and every call of the logger made by `step.Run` is recorded, in program
  order, in a trace of `Event`s.
* Go `error` values are chains of dynamically typed nodes; `errors.As` walks the chain.
-/

namespace Step

/-! ## Go errors -/

/-- Dynamic type of one error value: the type `errors.As` looks for in `step.Run`, or another. -/
inductive ErrType where
  | XCPrettyInstallError
  | other (name : String)
  deriving DecidableEq, Repr

/-- A Go `error`: a node with a dynamic type and a message, possibly wrapping another error. -/
inductive GoError where
  | leaf (typ : ErrType) (msg : String)
  | wrap (typ : ErrType) (msg : String) (inner : GoError)
  deriving DecidableEq, Repr

/-- The `Error()` string of an error value. -/
def GoError.Error : GoError → String
  | .leaf _ msg => msg
  | .wrap _ msg _ => msg

/-- `errors.As(err, &target)` for a target of dynamic type `target`: true when some error of the
chain of `err` (following `Unwrap`) has that type. -/
def errorsAs (target : ErrType) : GoError → Bool
  | .leaf typ _ => typ == target
  | .wrap typ _ inner => typ == target || errorsAs target inner

/-- `fmt.Errorf(pfx + "%w", err)`: a new error wrapping `err`, whose message is the prefix followed
by the message of `err`. -/
def fmtErrorf (pfx : String) (err : GoError) : GoError :=
  .wrap (.other "*fmt.wrapError") (pfx ++ err.Error) err

/-! ## Data model

The struct declarations are outside `main.go`; the fields are the ones `main.go` reads and writes.
`M` is the type of the code-signing manager handle and `A` the type of an archive handle. -/

/-- The validated configuration returned by `ProcessInputs`. -/
structure Config (M : Type) where
  ProjectPath : String
  Scheme : String
  Configuration : String
  LogFormatter : String
  XcodeMajorVersion : Int
  ArtifactName : String
  CodesignManager : Option M
  PerformCleanAction : Bool
  XcconfigContent : String
  XcodebuildAdditionalOptions : List String
  CacheLevel : String
  ExportOptionsPlistContent : String
  ExportMethod : String
  ICloudContainerEnvironment : String
  ExportDevelopmentTeam : String
  UploadBitcode : Bool
  CompileBitcode : Bool
  OutputDir : String
  ExportAllDsyms : Bool
  deriving DecidableEq, Repr

/-- Options of `EnsureDependencies`. -/
structure EnsureDependenciesOpts where
  XCPretty : Bool
  deriving DecidableEq, Repr

/-- Options of `archiver.Run`. -/
structure RunOpts (M : Type) where
  ProjectPath : String
  Scheme : String
  Configuration : String
  LogFormatter : String
  XcodeMajorVersion : Int
  ArtifactName : String
  CodesignManager : Option M
  PerformCleanAction : Bool
  XcconfigContent : String
  XcodebuildAdditionalOptions : List String
  CacheLevel : String
  CustomExportOptionsPlistContent : String
  ExportMethod : String
  ICloudContainerEnvironment : String
  ExportDevelopmentTeam : String
  UploadBitcode : Bool
  CompileBitcode : Bool
  deriving DecidableEq, Repr

/-- Result of `archiver.Run`; a nil archive pointer is `none`, an absent path is `""`. -/
structure RunResult (A : Type) where
  Archive : Option A
  ArtifactName : String
  ExportOptionsPath : String
  IPAExportDir : String
  XcodebuildArchiveLog : String
  XcodebuildExportArchiveLog : String
  IDEDistrubutionLogsDir : String
  deriving DecidableEq, Repr

/-- Options of `ExportOutput`. -/
structure ExportOpts (A : Type) where
  OutputDir : String
  ArtifactName : String
  ExportAllDsyms : Bool
  Archive : Option A
  ExportOptionsPath : String
  IPAExportDir : String
  XcodebuildArchiveLog : String
  XcodebuildExportArchiveLog : String
  IDEDistrubutionLogsDir : String
  deriving DecidableEq, Repr

/-- `createRunOptions` (main.go 74-97). -/
def createRunOptions {M : Type} (config : Config M) : RunOpts M :=
  { ProjectPath := config.ProjectPath
    Scheme := config.Scheme
    Configuration := config.Configuration
    LogFormatter := config.LogFormatter
    XcodeMajorVersion := config.XcodeMajorVersion
    ArtifactName := config.ArtifactName
    CodesignManager := config.CodesignManager
    PerformCleanAction := config.PerformCleanAction
    XcconfigContent := config.XcconfigContent
    XcodebuildAdditionalOptions := config.XcodebuildAdditionalOptions
    CacheLevel := config.CacheLevel
    CustomExportOptionsPlistContent := config.ExportOptionsPlistContent
    ExportMethod := config.ExportMethod
    ICloudContainerEnvironment := config.ICloudContainerEnvironment
    ExportDevelopmentTeam := config.ExportDevelopmentTeam
    UploadBitcode := config.UploadBitcode
    CompileBitcode := config.CompileBitcode }

/-- `createExportOptions` (main.go 99-114). -/
def createExportOptions {M A : Type} (config : Config M) (result : RunResult A) : ExportOpts A :=
  { OutputDir := config.OutputDir
    ArtifactName := result.ArtifactName
    ExportAllDsyms := config.ExportAllDsyms
    Archive := result.Archive
    ExportOptionsPath := result.ExportOptionsPath
    IPAExportDir := result.IPAExportDir
    XcodebuildArchiveLog := result.XcodebuildArchiveLog
    XcodebuildExportArchiveLog := result.XcodebuildExportArchiveLog
    IDEDistrubutionLogsDir := result.IDEDistrubutionLogsDir }

/-! ## The archiver and the trace -/

/-- The archiver returned by `createXcodebuildArchiver`: its four methods, each acting on the
world `σ` (file system, processes, environment) and returning its Go results. `I` is the type of
the raw step inputs. -/
structure XcodebuildArchiver (I M A σ : Type) where
  ProcessInputs : I → σ → (Config M × Option GoError) × σ
  EnsureDependencies : EnsureDependenciesOpts → σ → Option GoError × σ
  Run : RunOpts M → σ → (RunResult A × Option GoError) × σ
  ExportOutput : ExportOpts A → σ → Option GoError × σ

/-- What `step.Run` does, observably: calls of the four phases with their argument, and calls of
`logger.Errorf` / `logger.Warnf` with their format string and arguments. -/
inductive Event (I M A : Type) where
  | ProcessInputs (inputs : I)
  | EnsureDependencies (opts : EnsureDependenciesOpts)
  | Run (opts : RunOpts M)
  | ExportOutput (opts : ExportOpts A)
  | Errorf (format : String) (args : List String)
  | Warnf (format : String) (args : List String)
  deriving DecidableEq, Repr

/-- Result of one execution of `step.Run`: the returned exit code, the trace, the final world. -/
structure Outcome (I M A σ : Type) where
  exitCode : Int
  trace : List (Event I M A)
  world : σ

/-- Lines 43-58 of `step.Run`: build, then export whatever the build returned. `trace` holds
the events so far. -/
def runAndExport {I M A σ : Type} (archiver : XcodebuildArchiver I M A σ)
    (formattedError : GoError → String) (config : Config M) (trace : List (Event I M A))
    (w : σ) : Outcome I M A σ :=
  let exitCode : Int := 0
  let runOpts := createRunOptions config
  match archiver.Run runOpts w with
  | ((result, runErr), w3) =>
    let afterRun : Int × List (Event I M A) :=
      match runErr with
      | some err =>
        (1, trace ++ [Event.Run runOpts,
          Event.Errorf (formattedError (fmtErrorf "Failed to execute Step main logic: " err)) []])
      | none => (exitCode, trace ++ [Event.Run runOpts])
    let exportOpts := createExportOptions config result
    match archiver.ExportOutput exportOpts w3 with
    | (some err, w4) =>
      { exitCode := 1
        trace := afterRun.2 ++ [Event.ExportOutput exportOpts,
          Event.Errorf (formattedError (fmtErrorf "Failed to export Step outputs: " err)) []]
        world := w4 }
    | (none, w4) =>
      { exitCode := afterRun.1
        trace := afterRun.2 ++ [Event.ExportOutput exportOpts]
        world := w4 }

/-- `step.Run` (main.go 16-59). `archiver` stands for `createXcodebuildArchiver(logger)` and
`formattedError` for the package's error formatter, both defined outside `main.go`; `inputs` is
the value behind the `*Inputs` pointer. -/
def Run {I M A σ : Type} (archiver : XcodebuildArchiver I M A σ)
    (formattedError : GoError → String) (inputs : I) (w : σ) : Outcome I M A σ :=
  match archiver.ProcessInputs inputs w with
  | ((_, some err), w1) =>
    { exitCode := 1
      trace := [Event.ProcessInputs inputs,
        Event.Errorf (formattedError (fmtErrorf "Failed to process Step inputs: " err)) []]
      world := w1 }
  | ((config, none), w1) =>
    let dependenciesOpts : EnsureDependenciesOpts :=
      { XCPretty := config.LogFormatter == "xcpretty" }
    match archiver.EnsureDependencies dependenciesOpts w1 with
    | (some err, w2) =>
      if errorsAs ErrType.XCPrettyInstallError err then
        runAndExport archiver formattedError { config with LogFormatter := "xcodebuild" }
          [Event.ProcessInputs inputs, Event.EnsureDependencies dependenciesOpts,
            Event.Warnf "Installing xcpretty failed: %s" [err.Error],
            Event.Warnf "Switching to xcodebuild for log formatter" []]
          w2
      else
        { exitCode := 1
          trace := [Event.ProcessInputs inputs, Event.EnsureDependencies dependenciesOpts,
            Event.Errorf
              (formattedError (fmtErrorf "Failed to install Step dependencies: " err)) []]
          world := w2 }
    | (none, w2) =>
      runAndExport archiver formattedError config
        [Event.ProcessInputs inputs, Event.EnsureDependencies dependenciesOpts] w2

/-! ## Reading a trace -/

/-- Arguments of the `EnsureDependencies` calls of a trace, in order. -/
def ensureDependenciesCalls {I M A : Type} (trace : List (Event I M A)) :
    List EnsureDependenciesOpts :=
  trace.filterMap fun ev => match ev with
    | Event.EnsureDependencies opts => some opts
    | _ => none

/-- Arguments of the `archiver.Run` calls of a trace, in order. -/
def runCalls {I M A : Type} (trace : List (Event I M A)) : List (RunOpts M) :=
  trace.filterMap fun ev => match ev with
    | Event.Run opts => some opts
    | _ => none

/-- Arguments of the `ExportOutput` calls of a trace, in order. -/
def exportOutputCalls {I M A : Type} (trace : List (Event I M A)) : List (ExportOpts A) :=
  trace.filterMap fun ev => match ev with
    | Event.ExportOutput opts => some opts
    | _ => none

/-- The messages passed to `logger.Errorf` in a trace, in order. -/
def errorLog {I M A : Type} (trace : List (Event I M A)) : List String :=
  trace.filterMap fun ev => match ev with
    | Event.Errorf format _ => some format
    | _ => none

/-- The calls of `logger.Warnf` in a trace, in order: format string and arguments. -/
def warnLog {I M A : Type} (trace : List (Event I M A)) : List (String × List String) :=
  trace.filterMap fun ev => match ev with
    | Event.Warnf format args => some (format, args)
    | _ => none

/-- The Config that lines 43-58 of `step.Run` work with, given the Config returned by
`ProcessInputs` and the error returned by `EnsureDependencies`: the formatter is overwritten
exactly in the branch of line 33. -/
def configAfterDependencies {M : Type} (config : Config M) (depErr : Option GoError) :
    Config M :=
  match depErr with
  | some err =>
    if errorsAs ErrType.XCPrettyInstallError err then { config with LogFormatter := "xcodebuild" }
    else config
  | none => config

/-- An `EnsureDependencies` result on which `step.Run` goes on: no error, or an error in whose
chain `errors.As` finds an `XCPrettyInstallError`. -/
def dependenciesNotFatal (depErr : Option GoError) : Bool :=
  match depErr with
  | some err => errorsAs ErrType.XCPrettyInstallError err
  | none => true

/-! ## A concrete archiver

Used to run the pipeline on concrete inputs. The raw input is the scheme name and the requested
formatter; the world counts the phases that ran. -/

/-- Configuration built by `sampleArchiver` from a scheme and a formatter. -/
def sampleConfig (scheme formatter : String) : Config Nat :=
  { ProjectPath := "App.xcodeproj"
    Scheme := scheme
    Configuration := "Release"
    LogFormatter := formatter
    XcodeMajorVersion := 14
    ArtifactName := "App"
    CodesignManager := some 7
    PerformCleanAction := true
    XcconfigContent := "COMPILER_INDEX_STORE_ENABLE = NO"
    XcodebuildAdditionalOptions := ["-verbose"]
    CacheLevel := "swift_packages"
    ExportOptionsPlistContent := "<plist/>"
    ExportMethod := "development"
    ICloudContainerEnvironment := "Production"
    ExportDevelopmentTeam := "TEAM"
    UploadBitcode := true
    CompileBitcode := false
    OutputDir := "/deploy"
    ExportAllDsyms := true }

/-- A build result holding only the archive log, as left by a failed build. -/
def brokenBuildResult : RunResult Nat :=
  { Archive := none
    ArtifactName := "App"
    ExportOptionsPath := ""
    IPAExportDir := ""
    XcodebuildArchiveLog := "/tmp/xcodebuild-archive.log"
    XcodebuildExportArchiveLog := ""
    IDEDistrubutionLogsDir := "" }

/-- A complete build result. -/
def fullBuildResult : RunResult Nat :=
  { Archive := some 1
    ArtifactName := "App"
    ExportOptionsPath := "/tmp/export_options.plist"
    IPAExportDir := "/tmp/ipa"
    XcodebuildArchiveLog := "/tmp/xcodebuild-archive.log"
    XcodebuildExportArchiveLog := "/tmp/xcodebuild-export.log"
    IDEDistrubutionLogsDir := "/tmp/distribution-logs" }

/-- The error of a failed pretty-printer install: a wrapped `XCPrettyInstallError`. -/
def sampleInstallError : GoError :=
  GoError.wrap (ErrType.other "*fmt.wrapError") "install: gem failed"
    (GoError.leaf ErrType.XCPrettyInstallError "gem failed")

/-- The error of a failed build. -/
def sampleBuildError : GoError := GoError.leaf (ErrType.other "BuildError") "exit status 65"

/-- A sample archiver: an empty scheme is rejected; a formatter `"xcpretty"` cannot be installed
when `prettyBroken`, and the tool chain is missing when `toolchainMissing`; the scheme `"Broken"`
does not build; exporting fails when `diskFull`. -/
def sampleArchiver (prettyBroken toolchainMissing diskFull : Bool) :
    XcodebuildArchiver (String × String) Nat Nat Nat :=
  { ProcessInputs := fun inputs w =>
      ((sampleConfig inputs.1 inputs.2,
        if inputs.1 == "" then some (GoError.leaf (ErrType.other "ConfigurationError")
          "missing scheme") else none), w + 1)
    EnsureDependencies := fun opts w =>
      (if toolchainMissing then
          some (GoError.leaf (ErrType.other "DependencyError") "xcodebuild not found")
        else if opts.XCPretty && prettyBroken then
          some sampleInstallError
        else none, w + 1)
    Run := fun opts w =>
      (if opts.Scheme == "Broken" then
          (brokenBuildResult, some sampleBuildError)
        else (fullBuildResult, none), w + 1)
    ExportOutput := fun _ w =>
      (if diskFull then some (GoError.leaf (ErrType.other "ExportOutputError") "disk full")
        else none, w + 1) }

/-- A sample error formatter: the message of the error. -/
def sampleFormattedError (err : GoError) : String := err.Error

/-! ## The pipeline, computed from the results of its phases -/

section Pipeline

variable {I M A σ : Type} (archiver : XcodebuildArchiver I M A σ)
  (formattedError : GoError → String) (inputs : I) (w : σ)

/-- Lines 43-58 computed from the results of `archiver.Run` and `ExportOutput`. -/
theorem runAndExport_eq (config : Config M) (trace : List (Event I M A))
    (result : RunResult A) (runErr : Option GoError) (w3 : σ)
    (h3 : archiver.Run (createRunOptions config) w = ((result, runErr), w3))
    (expErr : Option GoError) (w4 : σ)
    (h4 : archiver.ExportOutput (createExportOptions config result) w3 = (expErr, w4)) :
    runAndExport archiver formattedError config trace w =
      { exitCode := if runErr.isSome || expErr.isSome then 1 else 0
        trace := trace ++ [Event.Run (createRunOptions config)]
          ++ (runErr.toList.map fun err => Event.Errorf
                (formattedError (fmtErrorf "Failed to execute Step main logic: " err)) [])
          ++ [Event.ExportOutput (createExportOptions config result)]
          ++ (expErr.toList.map fun err => Event.Errorf
                (formattedError (fmtErrorf "Failed to export Step outputs: " err)) [])
        world := w4 } := by
  unfold runAndExport
  simp only [h3, h4]
  cases runErr <;> cases expErr <;> simp

/-- `step.Run` when `ProcessInputs` returns an error. -/
theorem Run_eq_of_processInputs_error (config : Config M) (err : GoError) (w1 : σ)
    (h1 : archiver.ProcessInputs inputs w = ((config, some err), w1)) :
    Run archiver formattedError inputs w =
      { exitCode := 1
        trace := [Event.ProcessInputs inputs,
          Event.Errorf (formattedError (fmtErrorf "Failed to process Step inputs: " err)) []]
        world := w1 } := by
  unfold Run
  simp only [h1]

/-- `step.Run` when `EnsureDependencies` returns an error that `errors.As` does not match. -/
theorem Run_eq_of_dependencies_fatal (config : Config M) (w1 : σ)
    (h1 : archiver.ProcessInputs inputs w = ((config, none), w1))
    (err : GoError) (w2 : σ)
    (h2 : archiver.EnsureDependencies { XCPretty := config.LogFormatter == "xcpretty" } w1
      = (some err, w2))
    (hfatal : errorsAs ErrType.XCPrettyInstallError err = false) :
    Run archiver formattedError inputs w =
      { exitCode := 1
        trace := [Event.ProcessInputs inputs,
          Event.EnsureDependencies { XCPretty := config.LogFormatter == "xcpretty" },
          Event.Errorf
            (formattedError (fmtErrorf "Failed to install Step dependencies: " err)) []]
        world := w2 } := by
  unfold Run
  simp only [h1, h2, hfatal]
  simp

/-- `step.Run` when it reaches line 43: the trace so far is the two calls and, after a failed
formatter install, the two warnings; the rest is `runAndExport` on the Config of line 43. -/
theorem Run_eq_of_dependencies_not_fatal (config : Config M) (w1 : σ)
    (h1 : archiver.ProcessInputs inputs w = ((config, none), w1))
    (depErr : Option GoError) (w2 : σ)
    (h2 : archiver.EnsureDependencies { XCPretty := config.LogFormatter == "xcpretty" } w1
      = (depErr, w2))
    (hgo : dependenciesNotFatal depErr = true) :
    Run archiver formattedError inputs w =
      runAndExport archiver formattedError (configAfterDependencies config depErr)
        ([Event.ProcessInputs inputs,
          Event.EnsureDependencies { XCPretty := config.LogFormatter == "xcpretty" }]
          ++ (match depErr with
              | some err => [Event.Warnf "Installing xcpretty failed: %s" [err.Error],
                  Event.Warnf "Switching to xcodebuild for log formatter" []]
              | none => []))
        w2 := by
  unfold Run
  cases depErr with
  | none => simp only [h1, h2, configAfterDependencies]; rfl
  | some err =>
    simp only [dependenciesNotFatal] at hgo
    simp only [h1, h2, hgo, configAfterDependencies]
    simp

/-- `step.Run` when it reaches line 43, computed from the results of all four phases. -/
theorem Run_eq_of_build_reached (config : Config M) (w1 : σ)
    (h1 : archiver.ProcessInputs inputs w = ((config, none), w1))
    (depErr : Option GoError) (w2 : σ)
    (h2 : archiver.EnsureDependencies { XCPretty := config.LogFormatter == "xcpretty" } w1
      = (depErr, w2))
    (hgo : dependenciesNotFatal depErr = true)
    (result : RunResult A) (runErr : Option GoError) (w3 : σ)
    (h3 : archiver.Run (createRunOptions (configAfterDependencies config depErr)) w2
      = ((result, runErr), w3))
    (expErr : Option GoError) (w4 : σ)
    (h4 : archiver.ExportOutput
      (createExportOptions (configAfterDependencies config depErr) result) w3 = (expErr, w4)) :
    Run archiver formattedError inputs w =
      { exitCode := if runErr.isSome || expErr.isSome then 1 else 0
        trace := [Event.ProcessInputs inputs,
            Event.EnsureDependencies { XCPretty := config.LogFormatter == "xcpretty" }]
          ++ (match depErr with
              | some err => [Event.Warnf "Installing xcpretty failed: %s" [err.Error],
                  Event.Warnf "Switching to xcodebuild for log formatter" []]
              | none => [])
          ++ [Event.Run (createRunOptions (configAfterDependencies config depErr))]
          ++ (runErr.toList.map fun err => Event.Errorf
                (formattedError (fmtErrorf "Failed to execute Step main logic: " err)) [])
          ++ [Event.ExportOutput
                (createExportOptions (configAfterDependencies config depErr) result)]
          ++ (expErr.toList.map fun err => Event.Errorf
                (formattedError (fmtErrorf "Failed to export Step outputs: " err)) [])
        world := w4 } := by
  rw [Run_eq_of_dependencies_not_fatal archiver formattedError inputs w config w1 h1 depErr w2
    h2 hgo, runAndExport_eq archiver formattedError w2 _ _ result runErr w3 h3 expErr w4 h4]

/-- After a matched formatter-install failure the Config of line 43 has the raw formatter. -/
theorem configAfterDependencies_of_install_error (config : Config M) (err : GoError)
    (hinstall : errorsAs ErrType.XCPrettyInstallError err = true) :
    configAfterDependencies config (some err) = { config with LogFormatter := "xcodebuild" } := by
  simp [configAfterDependencies, hinstall]

/-- When line 43 is reached, `archiver.Run` is called exactly once, with the options built from
the Config of line 43. -/
theorem runCalls_of_build_reached (config : Config M) (w1 : σ)
    (h1 : archiver.ProcessInputs inputs w = ((config, none), w1))
    (depErr : Option GoError) (w2 : σ)
    (h2 : archiver.EnsureDependencies { XCPretty := config.LogFormatter == "xcpretty" } w1
      = (depErr, w2))
    (hgo : dependenciesNotFatal depErr = true) :
    runCalls (Run archiver formattedError inputs w).trace
      = [createRunOptions (configAfterDependencies config depErr)] := by
  rcases h3 : archiver.Run (createRunOptions (configAfterDependencies config depErr)) w2
    with ⟨⟨result, runErr⟩, w3⟩
  rcases h4 : archiver.ExportOutput
    (createExportOptions (configAfterDependencies config depErr) result) w3 with ⟨expErr, w4⟩
  rw [Run_eq_of_build_reached archiver formattedError inputs w config w1 h1 depErr w2 h2 hgo
    result runErr w3 h3 expErr w4 h4]
  cases depErr <;> cases runErr <;> cases expErr <;> simp [runCalls]

/-- When line 43 is reached, `ExportOutput` is called exactly once, with the options built from
the Config of line 43 and the result returned by `archiver.Run`. -/
theorem exportOutputCalls_of_build_reached (config : Config M) (w1 : σ)
    (h1 : archiver.ProcessInputs inputs w = ((config, none), w1))
    (depErr : Option GoError) (w2 : σ)
    (h2 : archiver.EnsureDependencies { XCPretty := config.LogFormatter == "xcpretty" } w1
      = (depErr, w2))
    (hgo : dependenciesNotFatal depErr = true)
    (result : RunResult A) (runErr : Option GoError) (w3 : σ)
    (h3 : archiver.Run (createRunOptions (configAfterDependencies config depErr)) w2
      = ((result, runErr), w3)) :
    exportOutputCalls (Run archiver formattedError inputs w).trace
      = [createExportOptions (configAfterDependencies config depErr) result] := by
  rcases h4 : archiver.ExportOutput
    (createExportOptions (configAfterDependencies config depErr) result) w3 with ⟨expErr, w4⟩
  rw [Run_eq_of_build_reached archiver formattedError inputs w config w1 h1 depErr w2 h2 hgo
    result runErr w3 h3 expErr w4 h4]
  cases depErr <;> cases runErr <;> cases expErr <;> simp [exportOutputCalls]

/-- C1: whatever the four phases return, `step.Run` returns 0 or 1, and it returns 0 exactly when
`ProcessInputs` returned no error, `EnsureDependencies` returned no error or one in whose chain
`errors.As` finds an `XCPrettyInstallError`, and `archiver.Run` and `ExportOutput` both returned a
nil error. -/
theorem C1_exit_code_contract
    (config : Config M) (piErr : Option GoError) (w1 : σ)
    (h1 : archiver.ProcessInputs inputs w = ((config, piErr), w1))
    (depErr : Option GoError) (w2 : σ)
    (h2 : archiver.EnsureDependencies { XCPretty := config.LogFormatter == "xcpretty" } w1
      = (depErr, w2))
    (result : RunResult A) (runErr : Option GoError) (w3 : σ)
    (h3 : archiver.Run (createRunOptions (configAfterDependencies config depErr)) w2
      = ((result, runErr), w3))
    (expErr : Option GoError) (w4 : σ)
    (h4 : archiver.ExportOutput
      (createExportOptions (configAfterDependencies config depErr) result) w3 = (expErr, w4)) :
    ((Run archiver formattedError inputs w).exitCode = 0
        ∨ (Run archiver formattedError inputs w).exitCode = 1)
      ∧ ((Run archiver formattedError inputs w).exitCode = 0 ↔
          piErr = none
          ∧ (depErr = none
            ∨ ∃ e, depErr = some e ∧ errorsAs ErrType.XCPrettyInstallError e = true)
          ∧ runErr = none ∧ expErr = none) := by
  cases piErr with
  | some e1 =>
    rw [Run_eq_of_processInputs_error archiver formattedError inputs w config e1 w1 h1]
    simp
  | none =>
    by_cases hgo : dependenciesNotFatal depErr = true
    · rw [Run_eq_of_dependencies_not_fatal archiver formattedError inputs w config w1 h1 depErr w2
        h2 hgo, runAndExport_eq archiver formattedError w2 _ _ result runErr w3 h3 expErr w4 h4]
      cases depErr <;> cases runErr <;> cases expErr <;> simp_all [dependenciesNotFatal]
    · cases depErr with
      | none => simp [dependenciesNotFatal] at hgo
      | some e2 =>
        simp only [dependenciesNotFatal, Bool.not_eq_true] at hgo
        rw [Run_eq_of_dependencies_fatal archiver formattedError inputs w config w1 h1 e2 w2 h2 hgo]
        simp [hgo]

/-- C1 at a concrete execution: the pretty-printer cannot be installed, the build and the export
succeed, and the exit code is 0. -/
theorem C1_exit_code_contract_witness :
    (sampleArchiver true false false).ProcessInputs ("App", "xcpretty") 0
        = ((sampleConfig "App" "xcpretty", none), 1)
      ∧ (Run (sampleArchiver true false false) sampleFormattedError
          ("App", "xcpretty") 0).exitCode = 0 :=
  ⟨rfl,
    ((C1_exit_code_contract (sampleArchiver true false false) sampleFormattedError
      ("App", "xcpretty") 0 (sampleConfig "App" "xcpretty") none 1 rfl
      (some sampleInstallError) 2 rfl
      fullBuildResult none 3 rfl none 4 rfl).2).2
      ⟨rfl, Or.inr ⟨_, rfl, rfl⟩, rfl, rfl⟩⟩

/-- C2: when `ProcessInputs` succeeds and `EnsureDependencies` does not fail fatally,
`ExportOutput` is called exactly once, after the single call of `archiver.Run`, whether or not
`archiver.Run` returned an error. The call receives the options built from the result that
`archiver.Run` returned (each of the seven result fields, the archive log among them, reaches it
unchanged), it is applied to the world `archiver.Run` left, and the execution ends in the world
and with the error, if any, that `ExportOutput` returned. When `archiver.Run` returned an error
the exit code is 1, also when `ExportOutput` succeeds; it is 0 only when both returned nil. -/
theorem C2_export_after_build_even_on_failure
    (config : Config M) (w1 : σ)
    (h1 : archiver.ProcessInputs inputs w = ((config, none), w1))
    (depErr : Option GoError) (w2 : σ)
    (h2 : archiver.EnsureDependencies { XCPretty := config.LogFormatter == "xcpretty" } w1
      = (depErr, w2))
    (hgo : dependenciesNotFatal depErr = true)
    (result : RunResult A) (runErr : Option GoError) (w3 : σ)
    (h3 : archiver.Run (createRunOptions (configAfterDependencies config depErr)) w2
      = ((result, runErr), w3))
    (expErr : Option GoError) (w4 : σ)
    (h4 : archiver.ExportOutput
      (createExportOptions (configAfterDependencies config depErr) result) w3 = (expErr, w4)) :
    exportOutputCalls (Run archiver formattedError inputs w).trace
        = [createExportOptions (configAfterDependencies config depErr) result]
      ∧ runCalls (Run archiver formattedError inputs w).trace
        = [createRunOptions (configAfterDependencies config depErr)]
      ∧ (∃ pre mid post, (Run archiver formattedError inputs w).trace
          = pre ++ [Event.Run (createRunOptions (configAfterDependencies config depErr))] ++ mid
            ++ [Event.ExportOutput
                (createExportOptions (configAfterDependencies config depErr) result)] ++ post)
      ∧ (∀ exportOpts ∈ exportOutputCalls (Run archiver formattedError inputs w).trace,
          exportOpts.ArtifactName = result.ArtifactName
          ∧ exportOpts.Archive = result.Archive
          ∧ exportOpts.ExportOptionsPath = result.ExportOptionsPath
          ∧ exportOpts.IPAExportDir = result.IPAExportDir
          ∧ exportOpts.XcodebuildArchiveLog = result.XcodebuildArchiveLog
          ∧ exportOpts.XcodebuildExportArchiveLog = result.XcodebuildExportArchiveLog
          ∧ exportOpts.IDEDistrubutionLogsDir = result.IDEDistrubutionLogsDir)
      ∧ (Run archiver formattedError inputs w).world = w4
      ∧ errorLog (Run archiver formattedError inputs w).trace
        = (runErr.toList.map fun e =>
            formattedError (fmtErrorf "Failed to execute Step main logic: " e))
          ++ (expErr.toList.map fun e =>
            formattedError (fmtErrorf "Failed to export Step outputs: " e))
      ∧ (runErr ≠ none → (Run archiver formattedError inputs w).exitCode = 1)
      ∧ (expErr ≠ none → (Run archiver formattedError inputs w).exitCode = 1)
      ∧ (runErr = none → expErr = none →
          (Run archiver formattedError inputs w).exitCode = 0) := by
  rw [Run_eq_of_build_reached archiver formattedError inputs w config w1 h1 depErr w2 h2 hgo
    result runErr w3 h3 expErr w4 h4]
  refine ⟨?_, ?_, ⟨_, _, _, rfl⟩, ?_, rfl, ?_, ?_, ?_, ?_⟩
  · cases depErr <;> cases runErr <;> cases expErr <;> simp [exportOutputCalls]
  · cases depErr <;> cases runErr <;> cases expErr <;> simp [runCalls]
  · cases depErr <;> cases runErr <;> cases expErr <;>
      simp [exportOutputCalls, createExportOptions]
  · cases depErr <;> cases runErr <;> cases expErr <;> simp [errorLog]
  · cases runErr <;> simp
  · cases runErr <;> cases expErr <;> simp
  · intro hr he
    subst hr
    subst he
    simp

/-- C2 at a concrete execution: the build of scheme `Broken` fails and leaves only its log; the
log is handed to `ExportOutput`, which runs in the world the build left (3) and succeeds, leaving
world 4; the only error message is the one of the build and the exit code is 1. -/
theorem C2_export_after_build_even_on_failure_witness :
    (sampleArchiver false false false).Run
        (createRunOptions (configAfterDependencies (sampleConfig "Broken" "xcodebuild") none)) 2
        = ((brokenBuildResult, some sampleBuildError), 3)
      ∧ (sampleArchiver false false false).ExportOutput
          (createExportOptions (configAfterDependencies (sampleConfig "Broken" "xcodebuild") none)
            brokenBuildResult) 3
        = (none, 4)
      ∧ exportOutputCalls
          (Run (sampleArchiver false false false) sampleFormattedError
            ("Broken", "xcodebuild") 0).trace
        = [{ OutputDir := "/deploy"
             ArtifactName := "App"
             ExportAllDsyms := true
             Archive := none
             ExportOptionsPath := ""
             IPAExportDir := ""
             XcodebuildArchiveLog := "/tmp/xcodebuild-archive.log"
             XcodebuildExportArchiveLog := ""
             IDEDistrubutionLogsDir := "" }]
      ∧ (Run (sampleArchiver false false false) sampleFormattedError
            ("Broken", "xcodebuild") 0).world = 4
      ∧ errorLog (Run (sampleArchiver false false false) sampleFormattedError
            ("Broken", "xcodebuild") 0).trace
        = ["Failed to execute Step main logic: exit status 65"]
      ∧ (Run (sampleArchiver false false false) sampleFormattedError
            ("Broken", "xcodebuild") 0).exitCode = 1 :=
  have h := C2_export_after_build_even_on_failure (sampleArchiver false false false)
    sampleFormattedError ("Broken", "xcodebuild") 0 (sampleConfig "Broken" "xcodebuild") 1 rfl
    none 2 rfl rfl brokenBuildResult (some sampleBuildError) 3 rfl none 4 rfl
  ⟨rfl, rfl, h.1, h.2.2.2.2.1, h.2.2.2.2.2.1, h.2.2.2.2.2.2.1 (by simp)⟩

/-- C3: when `EnsureDependencies` returns an error in whose chain `errors.As` finds an
`XCPrettyInstallError`, `step.Run` does not abort. It logs the two warnings and no error message
for the install failure, and calls `archiver.Run` once, in the world `EnsureDependencies` left,
with the options built from the Config whose formatter was overwritten, so with
`LogFormatter = "xcodebuild"`. The result of that call is what `ExportOutput` receives, the
execution ends in the world `ExportOutput` left, and the error messages and the exit code are
those of the build and the export alone. -/
theorem C3_formatter_install_failure_downgrades
    (config : Config M) (w1 : σ)
    (h1 : archiver.ProcessInputs inputs w = ((config, none), w1))
    (err : GoError) (w2 : σ)
    (h2 : archiver.EnsureDependencies { XCPretty := config.LogFormatter == "xcpretty" } w1
      = (some err, w2))
    (hinstall : errorsAs ErrType.XCPrettyInstallError err = true)
    (result : RunResult A) (runErr : Option GoError) (w3 : σ)
    (h3 : archiver.Run (createRunOptions { config with LogFormatter := "xcodebuild" }) w2
      = ((result, runErr), w3))
    (expErr : Option GoError) (w4 : σ)
    (h4 : archiver.ExportOutput
      (createExportOptions { config with LogFormatter := "xcodebuild" } result) w3
      = (expErr, w4)) :
    (∃ runOpts : RunOpts M,
        runCalls (Run archiver formattedError inputs w).trace = [runOpts]
        ∧ runOpts = createRunOptions { config with LogFormatter := "xcodebuild" }
        ∧ runOpts.LogFormatter = "xcodebuild")
      ∧ warnLog (Run archiver formattedError inputs w).trace
        = [("Installing xcpretty failed: %s", [err.Error]),
            ("Switching to xcodebuild for log formatter", [])]
      ∧ exportOutputCalls (Run archiver formattedError inputs w).trace
        = [createExportOptions { config with LogFormatter := "xcodebuild" } result]
      ∧ (Run archiver formattedError inputs w).world = w4
      ∧ errorLog (Run archiver formattedError inputs w).trace
        = (runErr.toList.map fun e =>
            formattedError (fmtErrorf "Failed to execute Step main logic: " e))
          ++ (expErr.toList.map fun e =>
            formattedError (fmtErrorf "Failed to export Step outputs: " e))
      ∧ (Run archiver formattedError inputs w).exitCode
        = if runErr.isSome || expErr.isSome then 1 else 0 := by
  have hgo : dependenciesNotFatal (some err) = true := by simp [dependenciesNotFatal, hinstall]
  have hc := configAfterDependencies_of_install_error config err hinstall
  rw [← hc] at h3 h4
  rw [Run_eq_of_build_reached archiver formattedError inputs w config w1 h1 (some err) w2 h2 hgo
    result runErr w3 h3 expErr w4 h4, hc]
  refine ⟨⟨_, ?_, rfl, rfl⟩, ?_, ?_, rfl, ?_, rfl⟩
  · cases runErr <;> cases expErr <;> simp [runCalls]
  · cases runErr <;> cases expErr <;> simp [warnLog]
  · cases runErr <;> cases expErr <;> simp [exportOutputCalls]
  · cases runErr <;> cases expErr <;> simp [errorLog]

/-- C3 at a concrete execution: the pretty formatter is requested and its install fails; the
build is run with the raw formatter in world 2, its full result is exported, the execution ends
in world 4 with no error message and exit code 0. -/
theorem C3_formatter_install_failure_downgrades_witness :
    errorsAs ErrType.XCPrettyInstallError sampleInstallError = true
      ∧ (sampleArchiver true false false).Run
          (createRunOptions { sampleConfig "App" "xcpretty" with LogFormatter := "xcodebuild" }) 2
        = ((fullBuildResult, none), 3)
      ∧ (∃ runOpts : RunOpts Nat,
          runCalls (Run (sampleArchiver true false false) sampleFormattedError
            ("App", "xcpretty") 0).trace = [runOpts]
          ∧ runOpts = createRunOptions
              { sampleConfig "App" "xcpretty" with LogFormatter := "xcodebuild" }
          ∧ runOpts.LogFormatter = "xcodebuild")
      ∧ (Run (sampleArchiver true false false) sampleFormattedError
          ("App", "xcpretty") 0).world = 4
      ∧ (Run (sampleArchiver true false false) sampleFormattedError
          ("App", "xcpretty") 0).exitCode = 0 :=
  have h := C3_formatter_install_failure_downgrades (sampleArchiver true false false)
    sampleFormattedError ("App", "xcpretty") 0 (sampleConfig "App" "xcpretty") 1 rfl
    sampleInstallError 2 rfl rfl fullBuildResult none 3 rfl none 4 rfl
  ⟨rfl, rfl, h.1, h.2.2.2.1, h.2.2.2.2.2⟩

/-- C4: take two executions in which `ProcessInputs` succeeds, `EnsureDependencies` succeeds in
the first and fails with a matched `XCPrettyInstallError` in the second, and `archiver.Run` and
`ExportOutput` return the same errors `runErr` and `expErr` in both. Then both executions return
the same exit code. -/
theorem C4_exit_code_ignores_formatter_install
    (archiver archiver' : XcodebuildArchiver I M A σ)
    (formattedError formattedError' : GoError → String) (inputs inputs' : I) (w w' : σ)
    (runErr expErr : Option GoError)
    (config : Config M) (w1 : σ)
    (h1 : archiver.ProcessInputs inputs w = ((config, none), w1))
    (w2 : σ)
    (h2 : archiver.EnsureDependencies { XCPretty := config.LogFormatter == "xcpretty" } w1
      = (none, w2))
    (result : RunResult A) (w3 : σ)
    (h3 : archiver.Run (createRunOptions config) w2 = ((result, runErr), w3))
    (w4 : σ)
    (h4 : archiver.ExportOutput (createExportOptions config result) w3 = (expErr, w4))
    (config' : Config M) (w1' : σ)
    (h1' : archiver'.ProcessInputs inputs' w' = ((config', none), w1'))
    (err : GoError) (w2' : σ)
    (h2' : archiver'.EnsureDependencies { XCPretty := config'.LogFormatter == "xcpretty" } w1'
      = (some err, w2'))
    (hinstall : errorsAs ErrType.XCPrettyInstallError err = true)
    (result' : RunResult A) (w3' : σ)
    (h3' : archiver'.Run (createRunOptions { config' with LogFormatter := "xcodebuild" }) w2'
      = ((result', runErr), w3'))
    (w4' : σ)
    (h4' : archiver'.ExportOutput
      (createExportOptions { config' with LogFormatter := "xcodebuild" } result') w3'
      = (expErr, w4')) :
    (Run archiver formattedError inputs w).exitCode
      = (Run archiver' formattedError' inputs' w').exitCode := by
  have hgo' : dependenciesNotFatal (some err) = true := by simp [dependenciesNotFatal, hinstall]
  have hc := configAfterDependencies_of_install_error config' err hinstall
  rw [← hc] at h3' h4'
  rw [Run_eq_of_build_reached archiver formattedError inputs w config w1 h1 none w2 h2 rfl
      result runErr w3 h3 expErr w4 h4,
    Run_eq_of_build_reached archiver' formattedError' inputs' w' config' w1' h1' (some err) w2'
      h2' hgo' result' runErr w3' h3' expErr w4' h4']

/-- C4 at two concrete executions of the same inputs, one with a working and one with a broken
pretty-printer install: both build and export, and both return 0. -/
theorem C4_exit_code_ignores_formatter_install_witness :
    (Run (sampleArchiver false false false) sampleFormattedError ("App", "xcpretty") 0).exitCode
        = (Run (sampleArchiver true false false) sampleFormattedError
            ("App", "xcpretty") 0).exitCode
      ∧ (Run (sampleArchiver true false false) sampleFormattedError
            ("App", "xcpretty") 0).exitCode = 0 :=
  ⟨C4_exit_code_ignores_formatter_install (sampleArchiver false false false)
    (sampleArchiver true false false) sampleFormattedError sampleFormattedError
    ("App", "xcpretty") ("App", "xcpretty") 0 0 none none
    (sampleConfig "App" "xcpretty") 1 rfl 2 rfl fullBuildResult 3 rfl 4 rfl
    (sampleConfig "App" "xcpretty") 1 rfl sampleInstallError 2 rfl rfl fullBuildResult 3 rfl 4 rfl,
    rfl⟩

/-- C5: when `ProcessInputs` returns an error, `step.Run` returns 1 and its trace holds no call
of `EnsureDependencies`, `archiver.Run` or `ExportOutput`; the world is the one `ProcessInputs`
left. -/
theorem C5_input_error_aborts
    (config : Config M) (err : GoError) (w1 : σ)
    (h1 : archiver.ProcessInputs inputs w = ((config, some err), w1)) :
    (Run archiver formattedError inputs w).exitCode = 1
      ∧ ensureDependenciesCalls (Run archiver formattedError inputs w).trace = []
      ∧ runCalls (Run archiver formattedError inputs w).trace = []
      ∧ exportOutputCalls (Run archiver formattedError inputs w).trace = []
      ∧ (Run archiver formattedError inputs w).world = w1 := by
  rw [Run_eq_of_processInputs_error archiver formattedError inputs w config err w1 h1]
  simp [ensureDependenciesCalls, runCalls, exportOutputCalls]

/-- C5 at a concrete execution: the scheme is missing. -/
theorem C5_input_error_aborts_witness :
    (Run (sampleArchiver false false false) sampleFormattedError ("", "xcodebuild") 0).exitCode = 1
      ∧ (Run (sampleArchiver false false false) sampleFormattedError ("", "xcodebuild") 0).trace
        = [Event.ProcessInputs ("", "xcodebuild"),
            Event.Errorf "Failed to process Step inputs: missing scheme" []] :=
  ⟨(C5_input_error_aborts (sampleArchiver false false false) sampleFormattedError
      ("", "xcodebuild") 0 (sampleConfig "" "xcodebuild")
      (GoError.leaf (ErrType.other "ConfigurationError") "missing scheme") 1 rfl).1, by decide⟩

/-- C6: when `EnsureDependencies` returns an error in whose chain `errors.As` finds no
`XCPrettyInstallError`, `step.Run` returns 1 and its trace holds no call of `archiver.Run` or
`ExportOutput`; the world is the one `EnsureDependencies` left. -/
theorem C6_fatal_dependency_error_aborts
    (config : Config M) (w1 : σ)
    (h1 : archiver.ProcessInputs inputs w = ((config, none), w1))
    (err : GoError) (w2 : σ)
    (h2 : archiver.EnsureDependencies { XCPretty := config.LogFormatter == "xcpretty" } w1
      = (some err, w2))
    (hfatal : errorsAs ErrType.XCPrettyInstallError err = false) :
    (Run archiver formattedError inputs w).exitCode = 1
      ∧ runCalls (Run archiver formattedError inputs w).trace = []
      ∧ exportOutputCalls (Run archiver formattedError inputs w).trace = []
      ∧ (Run archiver formattedError inputs w).world = w2 := by
  rw [Run_eq_of_dependencies_fatal archiver formattedError inputs w config w1 h1 err w2 h2 hfatal]
  simp [runCalls, exportOutputCalls]

/-- C6 at a concrete execution: the tool chain is missing. -/
theorem C6_fatal_dependency_error_aborts_witness :
    errorsAs ErrType.XCPrettyInstallError
        (GoError.leaf (ErrType.other "DependencyError") "xcodebuild not found") = false
      ∧ (Run (sampleArchiver true true false) sampleFormattedError ("App", "xcpretty") 0).exitCode
        = 1
      ∧ runCalls (Run (sampleArchiver true true false) sampleFormattedError
          ("App", "xcpretty") 0).trace = [] :=
  have h := C6_fatal_dependency_error_aborts (sampleArchiver true true false)
    sampleFormattedError ("App", "xcpretty") 0 (sampleConfig "App" "xcpretty") 1 rfl
    (GoError.leaf (ErrType.other "DependencyError") "xcodebuild not found") 2 rfl rfl
  ⟨rfl, h.1, h.2.1⟩

/-- C7: in an execution that calls `archiver.Run` with options `runOpts`, every field of `runOpts`
other than `LogFormatter` is the field of the Config returned by `ProcessInputs`
(`CustomExportOptionsPlistContent` being its `ExportOptionsPlistContent`); `LogFormatter` is the
Config's when `EnsureDependencies` returned no error and `"xcodebuild"` when the formatter was
downgraded; and `ExportOutput` is called once with the Config's `OutputDir` and
`ExportAllDsyms`. -/
theorem C7_config_reaches_later_phases_unchanged
    (config : Config M) (piErr : Option GoError) (w1 : σ)
    (h1 : archiver.ProcessInputs inputs w = ((config, piErr), w1))
    (depErr : Option GoError) (w2 : σ)
    (h2 : archiver.EnsureDependencies { XCPretty := config.LogFormatter == "xcpretty" } w1
      = (depErr, w2))
    (runOpts : RunOpts M)
    (hreach : runOpts ∈ runCalls (Run archiver formattedError inputs w).trace) :
    (runOpts.ProjectPath = config.ProjectPath
        ∧ runOpts.Scheme = config.Scheme
        ∧ runOpts.Configuration = config.Configuration
        ∧ runOpts.XcodeMajorVersion = config.XcodeMajorVersion
        ∧ runOpts.ArtifactName = config.ArtifactName
        ∧ runOpts.CodesignManager = config.CodesignManager
        ∧ runOpts.PerformCleanAction = config.PerformCleanAction
        ∧ runOpts.XcconfigContent = config.XcconfigContent
        ∧ runOpts.XcodebuildAdditionalOptions = config.XcodebuildAdditionalOptions
        ∧ runOpts.CacheLevel = config.CacheLevel
        ∧ runOpts.CustomExportOptionsPlistContent = config.ExportOptionsPlistContent
        ∧ runOpts.ExportMethod = config.ExportMethod
        ∧ runOpts.ICloudContainerEnvironment = config.ICloudContainerEnvironment
        ∧ runOpts.ExportDevelopmentTeam = config.ExportDevelopmentTeam
        ∧ runOpts.UploadBitcode = config.UploadBitcode
        ∧ runOpts.CompileBitcode = config.CompileBitcode)
      ∧ (depErr = none → runOpts.LogFormatter = config.LogFormatter)
      ∧ (depErr ≠ none → runOpts.LogFormatter = "xcodebuild")
      ∧ ∃ exportOpts : ExportOpts A,
          exportOutputCalls (Run archiver formattedError inputs w).trace = [exportOpts]
          ∧ exportOpts.OutputDir = config.OutputDir
          ∧ exportOpts.ExportAllDsyms = config.ExportAllDsyms := by
  cases piErr with
  | some e1 =>
    rw [Run_eq_of_processInputs_error archiver formattedError inputs w config e1 w1 h1] at hreach
    simp [runCalls] at hreach
  | none =>
    by_cases hgo : dependenciesNotFatal depErr = true
    · rcases h3 : archiver.Run (createRunOptions (configAfterDependencies config depErr)) w2
        with ⟨⟨result, runErr⟩, w3⟩
      rw [runCalls_of_build_reached archiver formattedError inputs w config w1 h1 depErr w2 h2
        hgo] at hreach
      rw [exportOutputCalls_of_build_reached archiver formattedError inputs w config w1 h1 depErr
        w2 h2 hgo result runErr w3 h3]
      simp only [List.mem_singleton] at hreach
      subst hreach
      cases depErr with
      | none => simp [configAfterDependencies, createRunOptions, createExportOptions]
      | some e2 =>
        simp only [dependenciesNotFatal] at hgo
        simp [configAfterDependencies, createRunOptions, createExportOptions, hgo]
    · cases depErr with
      | none => simp [dependenciesNotFatal] at hgo
      | some e2 =>
        simp only [dependenciesNotFatal, Bool.not_eq_true] at hgo
        rw [Run_eq_of_dependencies_fatal archiver formattedError inputs w config w1 h1 e2 w2 h2
          hgo] at hreach
        simp [runCalls] at hreach

/-- C7 at a concrete execution with a downgraded formatter: the scheme given to the build is the
Config's, the formatter is the raw one. -/
theorem C7_config_reaches_later_phases_unchanged_witness :
    createRunOptions { sampleConfig "App" "xcpretty" with LogFormatter := "xcodebuild" }
        ∈ runCalls (Run (sampleArchiver true false false) sampleFormattedError
            ("App", "xcpretty") 0).trace
      ∧ (createRunOptions
          { sampleConfig "App" "xcpretty" with LogFormatter := "xcodebuild" }).Scheme
        = (sampleConfig "App" "xcpretty").Scheme
      ∧ (createRunOptions
          { sampleConfig "App" "xcpretty" with LogFormatter := "xcodebuild" }).LogFormatter
        = "xcodebuild" :=
  have hreach : createRunOptions
      { sampleConfig "App" "xcpretty" with LogFormatter := "xcodebuild" }
      ∈ runCalls (Run (sampleArchiver true false false) sampleFormattedError
          ("App", "xcpretty") 0).trace := by decide
  have h := C7_config_reaches_later_phases_unchanged (sampleArchiver true false false)
    sampleFormattedError ("App", "xcpretty") 0 (sampleConfig "App" "xcpretty") none 1 rfl
    (some sampleInstallError) 2 rfl _ hreach
  ⟨hreach, h.1.2.1, h.2.2.1 (by simp)⟩

/-- C8: `createExportOptions` copies each field of the build result into the field of the same
name, for every Config and every result; so an absent archive stays absent and a log path that
is present stays present, independently of the other fields. -/
theorem C8_createExportOptions_copies_result (config : Config M) (result : RunResult A) :
    (createExportOptions config result).ArtifactName = result.ArtifactName
      ∧ (createExportOptions config result).Archive = result.Archive
      ∧ (createExportOptions config result).ExportOptionsPath = result.ExportOptionsPath
      ∧ (createExportOptions config result).IPAExportDir = result.IPAExportDir
      ∧ (createExportOptions config result).XcodebuildArchiveLog = result.XcodebuildArchiveLog
      ∧ (createExportOptions config result).XcodebuildExportArchiveLog
        = result.XcodebuildExportArchiveLog
      ∧ (createExportOptions config result).IDEDistrubutionLogsDir
        = result.IDEDistrubutionLogsDir
      ∧ ((createExportOptions config result).Archive = none ↔ result.Archive = none)
      ∧ ((createExportOptions config result).XcodebuildArchiveLog = ""
          ↔ result.XcodebuildArchiveLog = "") :=
  ⟨rfl, rfl, rfl, rfl, rfl, rfl, rfl, Iff.rfl, Iff.rfl⟩

/-- C9: no failure is swallowed. Whatever the four phases return:
* an error of `ProcessInputs` is logged as the only error message, with the prefix
  `Failed to process Step inputs`, and the exit code is 1;
* an error of `EnsureDependencies` is either a matched formatter-install failure, and then two
  warnings are logged and the build is called with the formatter `"xcodebuild"`, or it is logged
  as the only error message, with the prefix `Failed to install Step dependencies`, and the exit
  code is 1;
* when the build is reached, the error messages are exactly one message per error returned by
  `archiver.Run` and `ExportOutput`, in that order, with the prefixes
  `Failed to execute Step main logic` and `Failed to export Step outputs`, and the exit code is 1
  as soon as one of the two returned an error;
* the exit code is 1 if and only if at least one error message was logged. -/
theorem C9_no_failure_is_swallowed
    (config : Config M) (piErr : Option GoError) (w1 : σ)
    (h1 : archiver.ProcessInputs inputs w = ((config, piErr), w1))
    (depErr : Option GoError) (w2 : σ)
    (h2 : archiver.EnsureDependencies { XCPretty := config.LogFormatter == "xcpretty" } w1
      = (depErr, w2))
    (result : RunResult A) (runErr : Option GoError) (w3 : σ)
    (h3 : archiver.Run (createRunOptions (configAfterDependencies config depErr)) w2
      = ((result, runErr), w3))
    (expErr : Option GoError) (w4 : σ)
    (h4 : archiver.ExportOutput
      (createExportOptions (configAfterDependencies config depErr) result) w3 = (expErr, w4)) :
    (∀ e, piErr = some e →
        (Run archiver formattedError inputs w).exitCode = 1
        ∧ errorLog (Run archiver formattedError inputs w).trace
          = [formattedError (fmtErrorf "Failed to process Step inputs: " e)])
      ∧ (piErr = none → ∀ e, depErr = some e →
          (errorsAs ErrType.XCPrettyInstallError e = true
            ∧ warnLog (Run archiver formattedError inputs w).trace
              = [("Installing xcpretty failed: %s", [e.Error]),
                  ("Switching to xcodebuild for log formatter", [])]
            ∧ runCalls (Run archiver formattedError inputs w).trace
              = [createRunOptions { config with LogFormatter := "xcodebuild" }])
          ∨ (errorsAs ErrType.XCPrettyInstallError e = false
            ∧ (Run archiver formattedError inputs w).exitCode = 1
            ∧ errorLog (Run archiver formattedError inputs w).trace
              = [formattedError (fmtErrorf "Failed to install Step dependencies: " e)]))
      ∧ (piErr = none → dependenciesNotFatal depErr = true →
          errorLog (Run archiver formattedError inputs w).trace
            = (runErr.toList.map fun e =>
                formattedError (fmtErrorf "Failed to execute Step main logic: " e))
              ++ (expErr.toList.map fun e =>
                formattedError (fmtErrorf "Failed to export Step outputs: " e))
          ∧ ((runErr ≠ none ∨ expErr ≠ none) →
              (Run archiver formattedError inputs w).exitCode = 1))
      ∧ ((Run archiver formattedError inputs w).exitCode = 1
          ↔ errorLog (Run archiver formattedError inputs w).trace ≠ []) := by
  cases piErr with
  | some e1 =>
    rw [Run_eq_of_processInputs_error archiver formattedError inputs w config e1 w1 h1]
    simp [errorLog]
  | none =>
    by_cases hgo : dependenciesNotFatal depErr = true
    · rw [Run_eq_of_build_reached archiver formattedError inputs w config w1 h1 depErr w2 h2 hgo
        result runErr w3 h3 expErr w4 h4]
      cases depErr with
      | none =>
        cases runErr <;> cases expErr <;> simp [errorLog, dependenciesNotFatal]
      | some e2 =>
        simp only [dependenciesNotFatal] at hgo
        cases runErr <;> cases expErr <;>
          simp [errorLog, warnLog, runCalls, dependenciesNotFatal, configAfterDependencies, hgo]
    · cases depErr with
      | none => simp [dependenciesNotFatal] at hgo
      | some e2 =>
        simp only [dependenciesNotFatal, Bool.not_eq_true] at hgo
        rw [Run_eq_of_dependencies_fatal archiver formattedError inputs w config w1 h1 e2 w2 h2
          hgo]
        simp [errorLog, dependenciesNotFatal, hgo]

/-- C9 at a concrete execution in which the install of the pretty-printer, the build and the
export all fail: two error messages, one per failing phase after the downgrade, and exit
code 1. -/
theorem C9_no_failure_is_swallowed_witness :
    errorLog (Run (sampleArchiver true false true) sampleFormattedError
        ("Broken", "xcpretty") 0).trace
      = ["Failed to execute Step main logic: exit status 65",
          "Failed to export Step outputs: disk full"]
    ∧ (Run (sampleArchiver true false true) sampleFormattedError
        ("Broken", "xcpretty") 0).exitCode = 1 :=
  have h := C9_no_failure_is_swallowed (sampleArchiver true false true) sampleFormattedError
    ("Broken", "xcpretty") 0 (sampleConfig "Broken" "xcpretty") none 1 rfl
    (some sampleInstallError) 2 rfl brokenBuildResult (some sampleBuildError) 3 rfl
    (some (GoError.leaf (ErrType.other "ExportOutputError") "disk full")) 4 rfl
  ⟨(h.2.2.1 rfl rfl).1, (h.2.2.1 rfl rfl).2 (Or.inl (by simp))⟩

/-- C10: whenever `ProcessInputs` succeeds, `EnsureDependencies` is called exactly once, in
the world `ProcessInputs` left, and the `XCPretty` option of that call is true if and only if the
Config's `LogFormatter` is `"xcpretty"` (so false for every other formatter). What that call
returns decides the rest: an error that `errors.As` does not match ends the execution in the
world the call left, with exit code 1 and that error as the only error message; a matched install
error is the argument of the first warning; and without a fatal error the build and the export
run from the world the call left. -/
theorem C10_pretty_printer_requested_iff_selected
    (config : Config M) (w1 : σ)
    (h1 : archiver.ProcessInputs inputs w = ((config, none), w1))
    (depErr : Option GoError) (w2 : σ)
    (h2 : archiver.EnsureDependencies { XCPretty := config.LogFormatter == "xcpretty" } w1
      = (depErr, w2))
    (result : RunResult A) (runErr : Option GoError) (w3 : σ)
    (h3 : archiver.Run (createRunOptions (configAfterDependencies config depErr)) w2
      = ((result, runErr), w3))
    (expErr : Option GoError) (w4 : σ)
    (h4 : archiver.ExportOutput
      (createExportOptions (configAfterDependencies config depErr) result) w3 = (expErr, w4)) :
    (∃ opts : EnsureDependenciesOpts,
        ensureDependenciesCalls (Run archiver formattedError inputs w).trace = [opts]
        ∧ (opts.XCPretty = true ↔ config.LogFormatter = "xcpretty")
        ∧ (config.LogFormatter ≠ "xcpretty" → opts.XCPretty = false))
      ∧ (∀ e, depErr = some e → errorsAs ErrType.XCPrettyInstallError e = false →
          (Run archiver formattedError inputs w).world = w2
          ∧ (Run archiver formattedError inputs w).exitCode = 1
          ∧ errorLog (Run archiver formattedError inputs w).trace
            = [formattedError (fmtErrorf "Failed to install Step dependencies: " e)])
      ∧ (∀ e, depErr = some e → errorsAs ErrType.XCPrettyInstallError e = true →
          warnLog (Run archiver formattedError inputs w).trace
            = [("Installing xcpretty failed: %s", [e.Error]),
                ("Switching to xcodebuild for log formatter", [])])
      ∧ (dependenciesNotFatal depErr = true →
          (Run archiver formattedError inputs w).world = w4
          ∧ (Run archiver formattedError inputs w).exitCode
            = if runErr.isSome || expErr.isSome then 1 else 0) := by
  by_cases hgo : dependenciesNotFatal depErr = true
  · rw [Run_eq_of_build_reached archiver formattedError inputs w config w1 h1 depErr w2 h2 hgo
      result runErr w3 h3 expErr w4 h4]
    refine ⟨⟨{ XCPretty := config.LogFormatter == "xcpretty" }, ?_, by simp, by simp⟩,
      ?_, ?_, fun _ => ⟨rfl, rfl⟩⟩
    · cases depErr <;> cases runErr <;> cases expErr <;> simp [ensureDependenciesCalls]
    · intro e he hfatal
      subst he
      simp [dependenciesNotFatal, hfatal] at hgo
    · intro e he _
      subst he
      cases runErr <;> cases expErr <;> simp [warnLog]
  · cases depErr with
    | none => simp [dependenciesNotFatal] at hgo
    | some e2 =>
      have hgo' := hgo
      simp only [dependenciesNotFatal, Bool.not_eq_true] at hgo
      rw [Run_eq_of_dependencies_fatal archiver formattedError inputs w config w1 h1 e2 w2 h2
        hgo]
      refine ⟨⟨{ XCPretty := config.LogFormatter == "xcpretty" }, ?_, by simp, by simp⟩,
        ?_, ?_, fun h => absurd h hgo'⟩
      · simp [ensureDependenciesCalls]
      · intro e he _
        cases he
        simp [errorLog]
      · intro e he hm
        cases he
        simp [hgo] at hm

/-- C10 at a concrete execution: the pretty formatter is selected, so `EnsureDependencies` is
asked for the pretty-printer; the tool chain is missing, and the execution ends in the world that
call left (2) with exit code 1 and the dependency error as its only error message. -/
theorem C10_pretty_printer_requested_iff_selected_witness :
    (sampleArchiver false true false).EnsureDependencies
        { XCPretty := (sampleConfig "App" "xcpretty").LogFormatter == "xcpretty" } 1
        = (some (GoError.leaf (ErrType.other "DependencyError") "xcodebuild not found"), 2)
      ∧ (∃ opts : EnsureDependenciesOpts,
          ensureDependenciesCalls (Run (sampleArchiver false true false) sampleFormattedError
            ("App", "xcpretty") 0).trace = [opts]
          ∧ (opts.XCPretty = true ↔ (sampleConfig "App" "xcpretty").LogFormatter = "xcpretty")
          ∧ ((sampleConfig "App" "xcpretty").LogFormatter ≠ "xcpretty"
              → opts.XCPretty = false))
      ∧ ensureDependenciesCalls (Run (sampleArchiver false true false) sampleFormattedError
          ("App", "xcpretty") 0).trace = [{ XCPretty := true }]
      ∧ (Run (sampleArchiver false true false) sampleFormattedError
          ("App", "xcpretty") 0).world = 2
      ∧ (Run (sampleArchiver false true false) sampleFormattedError
          ("App", "xcpretty") 0).exitCode = 1
      ∧ errorLog (Run (sampleArchiver false true false) sampleFormattedError
          ("App", "xcpretty") 0).trace
        = ["Failed to install Step dependencies: xcodebuild not found"] :=
  have h := C10_pretty_printer_requested_iff_selected (sampleArchiver false true false)
    sampleFormattedError ("App", "xcpretty") 0 (sampleConfig "App" "xcpretty") 1 rfl
    (some (GoError.leaf (ErrType.other "DependencyError") "xcodebuild not found")) 2 rfl
    fullBuildResult none 3 rfl none 4 rfl
  ⟨rfl, h.1, by decide, (h.2.1 _ rfl rfl).1, (h.2.1 _ rfl rfl).2.1, (h.2.1 _ rfl rfl).2.2⟩

end Pipeline

end Step
